import Mathlib

/-!
# Verification of the xiaozhi-esp32 sensor-acquisition subsystem

Shallow embedding of the one-wire temperature driver, the ADC averaging
reads, the TDS/conductivity and pH calibration pipelines, the registry
temperature lookup, and the alert thresholds, as implemented in
`src/main/iot/things/temperature_sensor.cc`, `src/main/iot/things/ph_sensor.cc`
and the unnamed TDS variants. C++ `float`/`double` arithmetic is modelled by
exact rational arithmetic (`ℚ`); `static_cast<int>` is modelled by truncation
toward zero; machine byte values are `ℕ` with explicit masking.
-/

namespace XiaoZhi

/-- C++ `static_cast<int>` applied to a real value: truncation toward zero. -/
def icast (x : ℚ) : ℤ :=
  if 0 ≤ x then ⌊x⌋ else ⌈x⌉

/-- The 2-decimal rounding used throughout `AdcSensor`
(`temperature_sensor.cc:246-247,286`):
`static_cast<float>(static_cast<int>(x * 100 + 0.5)) / 100`. -/
def round2 (x : ℚ) : ℚ :=
  (icast (x * 100 + 0.5) : ℚ) / 100

/-! ## One-wire bit framing (`temperature_sensor.cc:52-76`) -/

/-- `TemperatureSensor::WriteByte` (`temperature_sensor.cc:52-57`): eight
`WriteBit(byte & 0x01)` calls, shifting right after each, i.e. the emitted
bit sequence is least-significant bit first. -/
def WriteByte : ℕ → ℕ → List Bool
  | 0, _ => []
  | n + 1, b => (b % 2 == 1) :: WriteByte n (b / 2)

/-- The eight bits driven on the line by `WriteByte(byte)`. -/
def writeByteBits (b : ℕ) : List Bool := WriteByte 8 b

/-- `TemperatureSensor::ReadByte` (`temperature_sensor.cc:70-76`):
`byte |= (ReadBit() << i)` for `i = 0..7`; `bits i` is the level sampled at
the `i`-th `ReadBit` call. -/
def ReadByte (bits : ℕ → Bool) : ℕ :=
  ∑ i ∈ Finset.range 8, (if bits i then 1 else 0) * 2 ^ i

/-- Interpret a list of line levels as the bit source for `ReadByte`
(missing samples read as low). -/
def bitsOf (l : List Bool) : ℕ → Bool :=
  fun i => l.getD i false

/-! ## One-wire transaction (`temperature_sensor.cc:78-95`) -/

/-- A byte-level-observable operation on the one-wire line. `reset` is
`OneWireReset`, `writeBit` one `WriteBit` slot, `delayUs` a blocking delay,
`readBit` one `ReadBit` slot. -/
inductive BusOp
  | reset
  | writeBit (b : Bool)
  | delayUs (n : ℕ)
  | readBit
deriving DecidableEq

/-- Bus operations issued by `WriteByte(b)`: its eight bit slots,
least-significant bit first. -/
def writeByteOps (b : ℕ) : List BusOp :=
  (writeByteBits b).map BusOp.writeBit

/-- The sequence of bus operations issued by
`TemperatureSensor::ReadTemperature` (`temperature_sensor.cc:78-95`):
reset; `WriteByte(0xCC)`; `WriteByte(0x44)`; `esp_rom_delay_us(750000)`;
reset; `WriteByte(0xCC)`; `WriteByte(0xBE)`; 9 `ReadByte` calls of 8 bit
slots each. -/
def ReadTemperatureTrace : List BusOp :=
  [BusOp.reset] ++ writeByteOps 0xCC ++ writeByteOps 0x44
    ++ [BusOp.delayUs 750000]
    ++ [BusOp.reset] ++ writeByteOps 0xCC ++ writeByteOps 0xBE
    ++ List.replicate 72 BusOp.readBit

/-- The `j`-th scratchpad byte assembled by the read loop
(`temperature_sensor.cc:88-91`), where `line n` is the level sampled at the
`n`-th `ReadBit` call of the read phase. -/
def scratchpadByte (line : ℕ → Bool) (j : ℕ) : ℕ :=
  ReadByte (fun i => line (8 * j + i))

/-- C++ conversion of a non-negative machine integer to `int16_t`:
wrap modulo 2^16, reading values at or above 2^15 as negative. -/
def toInt16 (n : ℕ) : ℤ :=
  (n % 65536 : ℤ) - (if n % 65536 < 32768 then 0 else 65536)

/-- Value computed by `TemperatureSensor::ReadTemperature`
(`temperature_sensor.cc:93-94`): `int16_t raw = (data[1] << 8) | data[0];
return raw / 16.0f;`. -/
def ReadTemperature (line : ℕ → Bool) : ℚ :=
  (toInt16 (scratchpadByte line 1 * 256 + scratchpadByte line 0) : ℚ) / 16

/-- Line levels delivering scratchpad bytes `data[0] = 0x50`,
`data[1] = 0x05` (the spec's 85 °C example). -/
def line85 : ℕ → Bool :=
  fun n => n == 4 || n == 6 || n == 8 || n == 10

/-- Line levels delivering scratchpad bytes `data[0] = 0xF8`,
`data[1] = 0xFF` (raw = -8, i.e. -0.5 °C). -/
def lineNeg : ℕ → Bool :=
  fun n => 3 ≤ n && n < 16

/-! ## Averaged ADC reads
(`temperature_sensor.cc:228-237,265-274`, `ph_sensor.cc:78-87`) -/

/-- The averaged multi-sample ADC read shared by
`AdcSensor::ReadTdsVoltage`, `AdcSensor::ReadPhVoltage` and
`PhSensor::ReadVoltage`: sum `count` raw samples into an `int`, integer-
divide by `count`, and convert via
`(float)adc_reading * DEFAULT_VREF / 4095.0f / 1000.0` with
`DEFAULT_VREF = 3300`. `adc n` is the raw code produced by the `n`-th
`adc_oneshot_read` call; the loop takes them back to back, with no lock
acquisition and no timeout branch. -/
def readAveragedVoltage (count : ℕ) (adc : ℕ → ℕ) : ℚ :=
  (((∑ i ∈ Finset.range count, adc i) / count : ℕ) : ℚ) * 3300 / 4095 / 1000

/-- `AdcSensor::ReadTdsVoltage` (`temperature_sensor.cc:228-237`),
`ADC_SAMPLE_COUNT = 16`. -/
def ReadTdsVoltage (adc : ℕ → ℕ) : ℚ := readAveragedVoltage 16 adc

/-- `PhSensor::ReadVoltage` (`ph_sensor.cc:78-87`), `ADC_SAMPLE_COUNT = 32`. -/
def PhSensorReadVoltage (adc : ℕ → ℕ) : ℚ := readAveragedVoltage 32 adc

/-! ## TDS / conductivity pipeline (`temperature_sensor.cc:239-262`) -/

/-- Field `k_factor_` of `AdcSensor` (`temperature_sensor.cc:163`). -/
def k_factor : ℚ := 0.67

/-- The temperature-compensation coefficient
`1.0 + 0.02 * (temperature_ - 25.0)` (`temperature_sensor.cc:242`). -/
def compensationCoefficient (T : ℚ) : ℚ := 1 + 0.02 * (T - 25)

/-- `AdcSensor::UpdateTdsValue` (`temperature_sensor.cc:239-247`) as a
function of the freshly read voltage `v` (the `ReadTdsVoltage()` result)
and the ambient temperature `T` (the `GetTemperature()` result); returns
the published pair `(tds_value_, conductivity_)`. Note `conductivity_` is
computed from the unrounded `tds_value_`, then both are rounded. -/
def UpdateTdsValue (v T : ℚ) : ℚ × ℚ :=
  let compensationVoltage := v / compensationCoefficient T
  let tds_value :=
    (133.42 * compensationVoltage * compensationVoltage * compensationVoltage
      - 255.86 * compensationVoltage * compensationVoltage
      + 857.39 * compensationVoltage) * 0.5
  let conductivity := k_factor * tds_value
  (round2 tds_value, round2 conductivity)

/-- The alert branch of `AdcSensor::UpdateTdsValue`
(`temperature_sensor.cc:252-262`): `if (conductivity_ > 100.0f)` schedule an
asynchronous alert, with `conductivity_` the published (rounded) value. -/
def tdsAlertScheduled (conductivity : ℚ) : Bool :=
  decide (100 < conductivity)

/-- One full TDS alert decision for a cycle: fires exactly when the
published conductivity exceeds 100 and carries that published value (the
value the code formats to 2 decimal places into the alert message). -/
def UpdateTdsAlert (v T : ℚ) : Option ℚ :=
  let r := UpdateTdsValue v T
  if tdsAlertScheduled r.2 then some r.2 else none

/-! ## pH pipeline (`temperature_sensor.cc:276-301`) -/

/-- Field `slope` of `AdcSensor` (`temperature_sensor.cc:166`). -/
def slope : ℚ := -14

/-- Field `intercept` of `AdcSensor` (`temperature_sensor.cc:167`). -/
def intercept : ℚ := 30.24

/-- `AdcSensor::UpdatePhValue` (`temperature_sensor.cc:276-286`) as a
function of the fresh voltage and ambient temperature: the published
`ph_value_`. -/
def UpdatePhValue (v T : ℚ) : ℚ :=
  let raw_ph := slope * v + intercept
  round2 (raw_ph + (25 - T) * 0.03)

/-- The alert branch of `AdcSensor::UpdatePhValue`
(`temperature_sensor.cc:291-301`): `if (ph_value_ < 4.0f || ph_value_ >
10.0f)` schedule an asynchronous alert, with `ph_value_` the published
(rounded) value. -/
def phAlertScheduled (ph : ℚ) : Bool :=
  decide (ph < 4) || decide (10 < ph)

/-! ## Registry temperature lookup
(`temperature_sensor.cc:197-226`, `ph_sensor.cc:47-76`) -/

/-- Model of a cJSON document tree (cJSON itself is an external
collaborator; only the shapes the lookup distinguishes matter). -/
inductive CJson
  | null
  | boolean (b : Bool)
  | number (q : ℚ)
  | str (s : String)
  | object (fields : List (String × CJson))
  | array (elems : List CJson)

/-- `cJSON_GetObjectItem`; `none` models a NULL cJSON pointer. -/
def cJSON_GetObjectItem : Option CJson → String → Option CJson
  | some (CJson.object fields), key =>
      (fields.find? (fun p => p.1 == key)).map Prod.snd
  | _, _ => none

/-- `cJSON_IsObject` (false on NULL). -/
def cJSON_IsObject : Option CJson → Bool
  | some (CJson.object _) => true
  | _ => false

/-- `cJSON_IsNumber` (false on NULL). -/
def cJSON_IsNumber : Option CJson → Bool
  | some (CJson.number _) => true
  | _ => false

/-- The `valuedouble` field of a cJSON node. -/
def valuedouble : Option CJson → ℚ
  | some (CJson.number q) => q
  | _ => 0

/-- `AdcSensor::GetTemperature` / `PhSensor::GetTemperature`
(`temperature_sensor.cc:197-226`, `ph_sensor.cc:47-76`) as a function of
the `cJSON_Parse` result of the registry state document returned for
"TemperatureSensor"; `none` models a parse failure. Defaults to 25 on
every failure path. -/
def GetTemperature (root : Option CJson) : ℚ :=
  match root with
  | none => 25
  | some r =>
    let state_obj := cJSON_GetObjectItem (some r) "state"
    if !cJSON_IsObject state_obj then 25
    else
      let temperature_item := cJSON_GetObjectItem state_obj "temperature"
      if !cJSON_IsNumber temperature_item then 25
      else valuedouble temperature_item

/-- A well-formed registry state document for "TemperatureSensor"
carrying temperature 19.375, the shape quoted in the source comment. -/
def sampleStateDoc : CJson :=
  CJson.object
    [("name", CJson.str "TemperatureSensor"),
     ("state", CJson.object [("temperature", CJson.number 19.375)])]

/-- A malformed state document: no "state" member. -/
def badStateDoc : CJson :=
  CJson.object [("name", CJson.str "TemperatureSensor")]

/-! ## Property accessors
(`temperature_sensor.cc:115-117,321-330`) -/

/-- A hardware transaction observable in this embedding: a one-wire bus
operation or one raw ADC conversion on a channel. -/
inductive HwOp
  | bus (op : BusOp)
  | adcSample (channel : ℕ)
deriving DecidableEq

/-- Published state of `TemperatureSensor` (field `temperature_`). -/
structure TempSensorState where
  temperature_ : ℚ

/-- Published state of `AdcSensor`
(fields `tds_value_`, `conductivity_`, `ph_value_`). -/
structure AdcSensorState where
  tds_value_ : ℚ
  conductivity_ : ℚ
  ph_value_ : ℚ

/-- The `temperature` property accessor (`temperature_sensor.cc:115-117`):
`return temperature_;` — returned value paired with the hardware
operations the accessor performs (none: it is a plain field read). -/
def temperatureProperty (s : TempSensorState) : ℚ × List HwOp :=
  (s.temperature_, [])

/-- The `conductivity` property accessor (`temperature_sensor.cc:321-323`). -/
def conductivityProperty (s : AdcSensorState) : ℚ × List HwOp :=
  (s.conductivity_, [])

/-- The `tds` property accessor (`temperature_sensor.cc:325-327`). -/
def tdsProperty (s : AdcSensorState) : ℚ × List HwOp :=
  (s.tds_value_, [])

/-- The `ph` property accessor (`temperature_sensor.cc:328-330`). -/
def phProperty (s : AdcSensorState) : ℚ × List HwOp :=
  (s.ph_value_, [])

/-- Hardware operations performed by one `ReadTdsVoltage()` call: 16 raw
conversions on the TDS channel (`ADC_CHANNEL_2`), for contrast with the
accessors. -/
def ReadTdsVoltageOps : List HwOp :=
  List.replicate 16 (HwOp.adcSample 2)

end XiaoZhi

namespace XiaoZhi

/-- Helper: evaluate `round2` at a point whose scaled value floors to `m`. -/
theorem round2_val (x : ℚ) (m : ℤ) (h0 : 0 ≤ x * 100 + 0.5)
    (h1 : (m : ℚ) ≤ x * 100 + 0.5) (h2 : x * 100 + 0.5 < (m : ℚ) + 1) :
    round2 x = (m : ℚ) / 100 := by
  unfold round2 icast
  rw [if_pos h0]
  have : ⌊x * 100 + 0.5⌋ = m := Int.floor_eq_iff.mpr ⟨h1, h2⟩
  rw [this]

/-- Helper: `round2` fixes a non-negative integer number of hundredths. -/
theorem round2_int_div_100 (m : ℤ) (hm : 0 ≤ m) :
    round2 ((m : ℚ) / 100) = (m : ℚ) / 100 := by
  have harg : ((m : ℚ) / 100) * 100 + 0.5 = (m : ℚ) + 0.5 := by field_simp
  have hm' : (0 : ℚ) ≤ (m : ℚ) := by exact_mod_cast hm
  rw [round2_val ((m : ℚ) / 100) m (by rw [harg]; linarith)
    (by rw [harg]; linarith) (by rw [harg]; norm_num)]

/-- Helper: a positive `round2` output is a fixed point of `round2`. -/
theorem round2_self_of_pos (y : ℚ) (h : 0 < round2 y) :
    round2 (round2 y) = round2 y := by
  have hy : round2 y = ((icast (y * 100 + 0.5) : ℚ)) / 100 := rfl
  have hm : 0 ≤ icast (y * 100 + 0.5) := by
    by_contra hneg
    push_neg at hneg
    have : ((icast (y * 100 + 0.5) : ℚ)) < 0 := by exact_mod_cast hneg
    rw [hy] at h
    nlinarith
  rw [hy]
  exact round2_int_div_100 _ hm

/-- Helper: the averaged ADC read is never negative. -/
theorem readAveragedVoltage_nonneg (count : ℕ) (adc : ℕ → ℕ) :
    0 ≤ readAveragedVoltage count adc := by
  unfold readAveragedVoltage
  positivity

/-- C9: the 2-decimal round-half-up rule is idempotent on non-negative
inputs: `round2 (round2 x) = round2 x` whenever `0 ≤ x`. -/
theorem round2_idempotent (x : ℚ) (hx : 0 ≤ x) :
    round2 (round2 x) = round2 x := by
  have hpos : (0 : ℚ) ≤ x * 100 + 0.5 := by positivity
  have h1 : icast (x * 100 + 0.5) = ⌊x * 100 + 0.5⌋ := by
    simp [icast, hpos]
  set n : ℤ := ⌊x * 100 + 0.5⌋ with hn
  have hn0 : 0 ≤ n := by
    have : (0 : ℤ) ≤ ⌊x * 100 + 0.5⌋ := by
      apply Int.floor_nonneg.mpr hpos
    simpa [hn] using this
  have hr1 : round2 x = (n : ℚ) / 100 := by
    simp [round2, h1, hn]
  rw [hr1]
  have harg : ((n : ℚ) / 100) * 100 + 0.5 = (n : ℚ) + 0.5 := by
    field_simp
  have hargpos : (0 : ℚ) ≤ ((n : ℚ) / 100) * 100 + 0.5 := by
    rw [harg]
    have : (0 : ℚ) ≤ (n : ℚ) := by exact_mod_cast hn0
    linarith
  have hfloor : ⌊((n : ℚ) / 100) * 100 + 0.5⌋ = n := by
    rw [harg]
    have : ⌊(n : ℚ) + 0.5⌋ = n + ⌊(0.5 : ℚ)⌋ := by
      exact_mod_cast Int.floor_int_add n (0.5 : ℚ)
    rw [this]
    norm_num
  unfold round2 icast
  rw [if_pos hargpos, hfloor]

/-- Witness for C9 at the concrete input 367.475 (the raw TDS value of the
spec's worked example). -/
theorem round2_idempotent_witness :
    round2 (round2 (367.475 : ℚ)) = round2 (367.475 : ℚ) :=
  round2_idempotent (367.475 : ℚ) (by norm_num)

set_option maxRecDepth 4096 in
/-- C7: writing any byte bit-by-bit least-significant-bit-first via
`WriteByte` and reading the emitted levels back through `ReadByte`'s
least-significant-bit-first accumulation reproduces the byte; in
particular `0xA5` round-trips to `0xA5`. -/
theorem writeByte_readByte_roundtrip :
    (∀ b : Fin 256, ReadByte (bitsOf (writeByteBits b.val)) = b.val) ∧
      ReadByte (bitsOf (writeByteBits 0xA5)) = 0xA5 := by
  constructor
  · decide
  · decide

set_option maxRecDepth 4096 in
/-- C2: the one-wire temperature transaction issues reset, byte 0xCC, byte
0x44 (each byte as eight LSB-first bit slots), blocks 750 ms, issues reset,
0xCC, 0xBE, reads 9 bytes (72 bit slots); it composes a signed 16-bit raw
value with scratchpad byte 1 as high byte and byte 0 as low byte and
returns raw / 16.0 °C; bytes 0x50/0x05 decode to 85 °C (and 0xF8/0xFF to
-0.5 °C, exercising the sign). -/
theorem readTemperature_transaction :
    ReadTemperatureTrace =
      [BusOp.reset] ++
      ([false, false, true, true, false, false, true, true].map BusOp.writeBit) ++
      ([false, false, true, false, false, false, true, false].map BusOp.writeBit) ++
      [BusOp.delayUs 750000, BusOp.reset] ++
      ([false, false, true, true, false, false, true, true].map BusOp.writeBit) ++
      ([false, true, true, true, true, true, false, true].map BusOp.writeBit) ++
      List.replicate 72 BusOp.readBit ∧
    (∀ line : ℕ → Bool,
      ReadTemperature line =
        (toInt16 (scratchpadByte line 1 * 256 + scratchpadByte line 0) : ℚ) / 16) ∧
    ReadTemperature line85 = 85 ∧
    ReadTemperature lineNeg = -(1 / 2) := by
  refine ⟨by decide, fun line => rfl, ?_, ?_⟩
  · show (toInt16 (scratchpadByte line85 1 * 256 + scratchpadByte line85 0) : ℚ) / 16 = 85
    norm_num [show scratchpadByte line85 1 = 5 from by decide,
      show scratchpadByte line85 0 = 80 from by decide, toInt16]
  · show (toInt16 (scratchpadByte lineNeg 1 * 256 + scratchpadByte lineNeg 0) : ℚ) / 16
        = -(1 / 2)
    norm_num [show scratchpadByte lineNeg 1 = 255 from by decide,
      show scratchpadByte lineNeg 0 = 248 from by decide, toInt16]

/-- C1 counterexample: no sample stream makes either averaged analog read
return the sentinel -1.0 — the source loops over the samples directly, with
no lock acquisition and no timeout branch, so the claimed sentinel return
path does not exist. -/
theorem adcRead_never_sentinel :
    (∃ adc : ℕ → ℕ, ReadTdsVoltage adc = -1 ∨ PhSensorReadVoltage adc = -1)
      = False := by
  rw [eq_iff_iff, iff_false]
  rintro ⟨adc, h | h⟩
  · have := readAveragedVoltage_nonneg 16 adc
    rw [show readAveragedVoltage 16 adc = ReadTdsVoltage adc from rfl, h] at this
    norm_num at this
  · have := readAveragedVoltage_nonneg 32 adc
    rw [show readAveragedVoltage 32 adc = PhSensorReadVoltage adc from rfl, h] at this
    norm_num at this

/-- C1 amended: every call to the averaged analog read takes its
`sampleCount` raw samples back to back with no mutual-exclusion lock and no
bounded wait; it always returns the averaged voltage
`rawAverage * 3300 / 4095 / 1000` (integer average), which is non-negative,
and the sentinel -1.0 is never returned. -/
theorem adcRead_unserialized (adc : ℕ → ℕ) :
    ReadTdsVoltage adc
        = (((∑ i ∈ Finset.range 16, adc i) / 16 : ℕ) : ℚ) * 3300 / 4095 / 1000 ∧
    PhSensorReadVoltage adc
        = (((∑ i ∈ Finset.range 32, adc i) / 32 : ℕ) : ℚ) * 3300 / 4095 / 1000 ∧
    0 ≤ ReadTdsVoltage adc ∧ ReadTdsVoltage adc ≠ -1 ∧
    0 ≤ PhSensorReadVoltage adc ∧ PhSensorReadVoltage adc ≠ -1 := by
  have h16 := readAveragedVoltage_nonneg 16 adc
  have h32 := readAveragedVoltage_nonneg 32 adc
  refine ⟨rfl, rfl, h16, fun h => ?_, h32, fun h => ?_⟩
  · rw [show readAveragedVoltage 16 adc = ReadTdsVoltage adc from rfl, h] at h16
    norm_num at h16
  · rw [show readAveragedVoltage 32 adc = PhSensorReadVoltage adc from rfl, h] at h32
    norm_num at h32

/-- C10: the TDS update divides the measured voltage by the unguarded
compensation coefficient `1 + 0.02 * (T - 25)`; that divisor is zero
exactly at T = -25 °C, so the division is well-defined only under the
precondition T ≠ -25. -/
theorem compensationCoefficient_zero_iff :
    (∀ T : ℚ, compensationCoefficient T = 0 ↔ T = -25) ∧
      compensationCoefficient (-25) = 0 := by
  constructor
  · intro T
    unfold compensationCoefficient
    constructor
    · intro h; linarith
    · intro h; rw [h]; norm_num
  · unfold compensationCoefficient; norm_num

/-- Shared evaluation: the published TDS pair at v = 1 V, T = 25 °C. -/
theorem updateTds_at_1_25 : UpdateTdsValue 1 25 = (367.48, 246.21) := by
  have h1 : UpdateTdsValue 1 25 = (round2 367.475, round2 246.20825) := by
    unfold UpdateTdsValue compensationCoefficient k_factor
    norm_num
  rw [h1, round2_val 367.475 36748 (by norm_num) (by norm_num) (by norm_num),
    round2_val 246.20825 24621 (by norm_num) (by norm_num) (by norm_num)]
  norm_num

/-- C3: the TDS update computes compensation factor `1 + 0.02*(T-25)`,
compensated voltage `v' = v / factor`,
`tds = (133.42 v'³ - 255.86 v'² + 857.39 v') * 0.5`,
`conductivity = kFactor * tds` (from the unrounded tds), and rounds both
published values by the multiply-100/add-0.5/truncate/divide rule; at
v = 1 V, T = 25 °C it publishes tds 367.48 and conductivity 246.21. -/
theorem updateTds_formula :
    (∀ v T : ℚ,
      UpdateTdsValue v T =
        (round2 ((133.42 * (v / (1 + 0.02 * (T - 25))) ^ 3
            - 255.86 * (v / (1 + 0.02 * (T - 25))) ^ 2
            + 857.39 * (v / (1 + 0.02 * (T - 25)))) * 0.5),
         round2 (0.67 * ((133.42 * (v / (1 + 0.02 * (T - 25))) ^ 3
            - 255.86 * (v / (1 + 0.02 * (T - 25))) ^ 2
            + 857.39 * (v / (1 + 0.02 * (T - 25)))) * 0.5)))) ∧
    UpdateTdsValue 1 25 = (367.48, 246.21) := by
  refine ⟨fun v T => ?_, updateTds_at_1_25⟩
  show (round2 ((133.42 * (v / compensationCoefficient T)
        * (v / compensationCoefficient T) * (v / compensationCoefficient T)
      - 255.86 * (v / compensationCoefficient T) * (v / compensationCoefficient T)
      + 857.39 * (v / compensationCoefficient T)) * 0.5),
    round2 (k_factor * ((133.42 * (v / compensationCoefficient T)
        * (v / compensationCoefficient T) * (v / compensationCoefficient T)
      - 255.86 * (v / compensationCoefficient T) * (v / compensationCoefficient T)
      + 857.39 * (v / compensationCoefficient T)) * 0.5))) = _
  rw [Prod.mk.injEq]
  constructor
  · exact congrArg round2 (by unfold compensationCoefficient; ring)
  · exact congrArg round2 (by unfold compensationCoefficient k_factor; ring)

/-- C5: the canonical pH update computes `rawPh = slope*v + intercept`
(slope -14, intercept 30.24) and publishes
`round2 (rawPh + (25 - T) * 0.03)`; e.g. v = 1.5 V at T = 25 °C publishes
9.24 and v = 2 V at T = 20 °C publishes 2.39. -/
theorem updatePh_formula :
    (∀ v T : ℚ,
      UpdatePhValue v T = round2 (slope * v + intercept + (25 - T) * 0.03)) ∧
    slope = -14 ∧ intercept = 30.24 ∧
    UpdatePhValue 1.5 25 = 9.24 ∧
    UpdatePhValue 2 20 = 2.39 := by
  refine ⟨fun v T => rfl, rfl, rfl, ?_, ?_⟩
  · have h : UpdatePhValue 1.5 25 = round2 9.24 := by
      unfold UpdatePhValue slope intercept
      norm_num
    rw [h, round2_val 9.24 924 (by norm_num) (by norm_num) (by norm_num)]
    norm_num
  · have h : UpdatePhValue 2 20 = round2 2.39 := by
      unfold UpdatePhValue slope intercept
      norm_num
    rw [h, round2_val 2.39 239 (by norm_num) (by norm_num) (by norm_num)]
    norm_num

/-- C6: an asynchronous alert is scheduled exactly when the published
conductivity exceeds 100 µS/cm or the published pH is below 4 or above 10;
conductivity 150, pH 3.5 and pH 11 each schedule an alert on their cycle,
conductivity 90 and pH 7 do not; a fired TDS alert carries the published
conductivity, which is above threshold and exact at 2 decimal places. -/
theorem alert_thresholds :
    (∀ c : ℚ, tdsAlertScheduled c = true ↔ 100 < c) ∧
    (∀ p : ℚ, phAlertScheduled p = true ↔ (p < 4 ∨ 10 < p)) ∧
    tdsAlertScheduled 150 = true ∧ tdsAlertScheduled 90 = false ∧
    phAlertScheduled 3.5 = true ∧ phAlertScheduled 11 = true ∧
    phAlertScheduled 7 = false ∧
    (∀ v T c : ℚ, UpdateTdsAlert v T = some c → 100 < c ∧ round2 c = c) := by
  refine ⟨fun c => by simp [tdsAlertScheduled],
    fun p => by simp [phAlertScheduled],
    by norm_num [tdsAlertScheduled], by norm_num [tdsAlertScheduled],
    by norm_num [phAlertScheduled], by norm_num [phAlertScheduled],
    by norm_num [phAlertScheduled], ?_⟩
  intro v T c h
  simp only [UpdateTdsAlert] at h
  by_cases hb : tdsAlertScheduled (UpdateTdsValue v T).2 = true
  · rw [if_pos hb] at h
    obtain rfl := Option.some.inj h
    have hc : 100 < (UpdateTdsValue v T).2 := by
      simpa [tdsAlertScheduled] using hb
    refine ⟨hc, ?_⟩
    obtain ⟨y, hy⟩ : ∃ y : ℚ, (UpdateTdsValue v T).2 = round2 y := ⟨_, rfl⟩
    rw [hy] at hc ⊢
    exact round2_self_of_pos y (lt_trans (by norm_num) hc)
  · rw [if_neg hb] at h
    cases h

/-- C6 witness: at v = 1 V, T = 25 °C the TDS cycle fires an alert carrying
the published conductivity 246.21, which is above 100 and 2-dp exact. -/
theorem alert_thresholds_witness :
    100 < (246.21 : ℚ) ∧ round2 (246.21 : ℚ) = 246.21 :=
  alert_thresholds.2.2.2.2.2.2.2 1 25 246.21 (by
    simp only [UpdateTdsAlert, tdsAlertScheduled, updateTds_at_1_25]
    norm_num)

/-- Helper: a successful object lookup means the node was an object. -/
theorem getObjectItem_isObject {o : Option CJson} {k : String} {x : CJson}
    (h : cJSON_GetObjectItem o k = some x) :
    cJSON_IsObject o = true := by
  rcases o with _ | c
  · simp [cJSON_GetObjectItem] at h
  · cases c with
    | object fields => rfl
    | null => simp [cJSON_GetObjectItem] at h
    | boolean b => simp [cJSON_GetObjectItem] at h
    | number q => simp [cJSON_GetObjectItem] at h
    | str s => simp [cJSON_GetObjectItem] at h
    | array es => simp [cJSON_GetObjectItem] at h

/-- C4: the water-quality cycles fetch the ambient temperature from the
registry's published state for "TemperatureSensor"; on parse failure,
missing/non-object "state", or missing/non-numeric "temperature" the
lookup returns the default 25 °C (the cycle continues), and on a
well-formed document it returns the published number. -/
theorem getTemperature_defaults :
    GetTemperature none = 25 ∧
    (∀ r : CJson,
      cJSON_IsObject (cJSON_GetObjectItem (some r) "state") = false →
        GetTemperature (some r) = 25) ∧
    (∀ r : CJson,
      cJSON_IsNumber (cJSON_GetObjectItem (cJSON_GetObjectItem (some r) "state")
          "temperature") = false →
        GetTemperature (some r) = 25) ∧
    (∀ (r : CJson) (t : ℚ),
      cJSON_GetObjectItem (cJSON_GetObjectItem (some r) "state") "temperature"
          = some (CJson.number t) →
        GetTemperature (some r) = t) := by
  refine ⟨rfl, fun r h => ?_, fun r h => ?_, fun r t h => ?_⟩
  · simp [GetTemperature, h]
  · by_cases hobj : cJSON_IsObject (cJSON_GetObjectItem (some r) "state") = true
    · simp [GetTemperature, hobj, h]
    · have hobj' : cJSON_IsObject (cJSON_GetObjectItem (some r) "state") = false := by
        simpa using hobj
      simp [GetTemperature, hobj']
  · have hobj : cJSON_IsObject (cJSON_GetObjectItem (some r) "state") = true :=
      getObjectItem_isObject h
    have hnum : cJSON_IsNumber
        (cJSON_GetObjectItem (cJSON_GetObjectItem (some r) "state")
          "temperature") = true := by
      rw [h]; rfl
    simp [GetTemperature, hobj, hnum, h, valuedouble, cJSON_IsNumber]

/-- C4 witness: a well-formed state document yields its temperature
(19.375 °C) and a document without a "state" member yields 25 °C. -/
theorem getTemperature_defaults_witness :
    GetTemperature (some sampleStateDoc) = 19.375 ∧
      GetTemperature (some badStateDoc) = 25 :=
  ⟨getTemperature_defaults.2.2.2 sampleStateDoc 19.375 rfl,
   getTemperature_defaults.2.1 badStateDoc rfl⟩

/-- C8: each registered property accessor (temperature, tds, conductivity,
ph) returns the last value stored by the owning probe's cycle and performs
no hardware operation, while the probe-cycle read paths do perform
hardware transactions. -/
theorem property_accessors_plain_reads :
    (∀ s : TempSensorState, temperatureProperty s = (s.temperature_, [])) ∧
    (∀ s : AdcSensorState,
      conductivityProperty s = (s.conductivity_, []) ∧
      tdsProperty s = (s.tds_value_, []) ∧
      phProperty s = (s.ph_value_, [])) ∧
    ReadTemperatureTrace ≠ [] ∧ ReadTdsVoltageOps ≠ [] := by
  refine ⟨fun s => rfl, fun s => ⟨rfl, rfl, rfl⟩, ?_, ?_⟩
  · simp [ReadTemperatureTrace]
  · simp [ReadTdsVoltageOps]

end XiaoZhi
